import Mathlib

/-!
Verification of the PowerManagementBoard flight software core against its
specification: the battery state machine (BatterySM), the PMB protocol
gateway handlers, and the per-task command dispatch loops, embedded
shallowly from the sources under src/.
-/

/-- BatteryState enum of BatterySM.hpp lines 13 to 20: BS_IDLE is 0 and the
values are dense up to the invalid sentinel BS_NONE, which must be last. -/
abbrev BS_IDLE : Nat := 0

/-- BatteryState value BS_CHARGING. -/
abbrev BS_CHARGING : Nat := 1

/-- BatteryState value BS_DISCHARGING. -/
abbrev BS_DISCHARGING : Nat := 2

/-- BatteryState value BS_FAULT. -/
abbrev BS_FAULT : Nat := 3

/-- BatteryState sentinel BS_NONE, one past the last valid state. -/
abbrev BS_NONE : Nat := 4

/-- Modelled from the spec: the GLOBAL_COMMAND enum of Command.hpp is not
under src/; spec section 6 lists the inter-task command vocabulary. Only
distinctness of the tags is used by the code under src/. -/
inductive GLOBAL_COMMAND
  | REQUEST_COMMAND
  | DATA_COMMAND
  | TASK_SPECIFIC_COMMAND
  | CONTROL_ACTION
  | HEARTBEAT_COMMAND
  | TELEMETRY_CHANGE_PERIOD
  deriving DecidableEq

/-- Modelled from the spec: task sub-code constants (uint16 enum values in
headers not under src/); they are modelled as distinct naturals because the
code under src/ only compares them for identity. BMS_UPDATE tags a BMS
reading sent to the battery state machine. -/
abbrev BMS_UPDATE : Nat := 10

/-- Task sub-code for a charger reading. -/
abbrev CHARGER_UPDATE : Nat := 11

/-- Task sub-code for a fuel gauge reading. -/
abbrev FUEL_GAUGE_UPDATE : Nat := 12

/-- Task sub-code carried by the CONTROL_ACTION forwarded on an abort
command message. -/
abbrev RSC_ANY_TO_ABORT : Nat := 20

/-- Task sub-code of the heartbeat Command sent to the watchdog task. -/
abbrev RADIOHB_REQUEST : Nat := 21

/-- Task sub-code of the full flash erase Command sent to the flash task. -/
abbrev ERASE_ALL_FLASH : Nat := 22

/-- Task sub-code of the transmit-state request handled by the flight task. -/
abbrev FT_REQUEST_TRANSMIT_STATE : Nat := 23

/-- Task sub-code requesting a thermocouple sample in the BMS task. -/
abbrev THERMOCOUPLE_REQUEST_NEW_SAMPLE : Nat := 30

/-- Task sub-code requesting a thermocouple transmit in the BMS task. -/
abbrev THERMOCOUPLE_REQUEST_TRANSMIT : Nat := 31

/-- Task sub-code requesting a thermocouple debug print in the BMS task. -/
abbrev THERMOCOUPLE_REQUEST_DEBUG : Nat := 32

/-- Command value object: a coarse kind, a 16-bit task sub-code and the
owned payload bytes (Command.hpp is not under src/; the shape follows spec
section 3 and the call sites in the sources). -/
structure Command where
  command : GLOBAL_COMMAND
  taskCommand : Nat
  data : List Nat
  deriving DecidableEq

/-- Command constructor taking a kind and a uint16 sub-code; a wider
argument at a call site narrows modulo 2 to the 16, as the C++ parameter
type does. -/
def mkCommand (command : GLOBAL_COMMAND) (taskCommand : Nat) : Command :=
  { command := command, taskCommand := taskCommand % 65536, data := [] }

/-- Command.CopyDataFromCommand copies the first size bytes of the owned
payload out of the Command without releasing it. -/
def Command.copyDataFromCommand (cm : Command) (size : Nat) : List Nat :=
  cm.data.take size

/-- Modelled from the spec: the BMSData struct is defined in a header not
under src/; it is an abstract fixed-size byte record here. -/
structure BMSData where
  bytes : List Nat

/-- Modelled from the spec: the ChargerData struct, as an abstract byte
record. -/
structure ChargerData where
  bytes : List Nat

/-- Modelled from the spec: the FuelGaugeData struct, as an abstract byte
record. -/
structure FuelGaugeData where
  bytes : List Nat

/-- Modelled from the spec: byte size of BMSData; the numeric value is
target specific and no theorem depends on it. -/
abbrev sizeofBMSData : Nat := 8

/-- Byte size of ChargerData, an abstract stand-in like sizeofBMSData. -/
abbrev sizeofChargerData : Nat := 8

/-- Byte size of FuelGaugeData, an abstract stand-in like sizeofBMSData. -/
abbrev sizeofFuelGaugeData : Nat := 8

/-- A polymorphic battery state object (BaseBatteryState in BatterySM.hpp):
its identity bsStateID, returned by GetStateID, and its virtual data
handlers. The OnEnter and OnExit bodies in BatterySM.cpp only return
bsStateID, so a hook is modelled purely as the call event it contributes to
the transition trace, and SOAR_PRINT diagnostics are not modelled. -/
structure BatteryStateObj where
  bsStateID : Nat
  handleBMSData : BMSData → Nat
  handleChargerData : ChargerData → Nat
  handleFuelGaugeData : FuelGaugeData → Nat

/-- Idle state (BatterySM.cpp lines 139 to 199): the constructor sets
bsStateID to BS_IDLE and every data handler is a stub returning the current
state id, meaning no transition. -/
def IdleObj : BatteryStateObj where
  bsStateID := BS_IDLE
  handleBMSData := fun _ => BS_IDLE
  handleChargerData := fun _ => BS_IDLE
  handleFuelGaugeData := fun _ => BS_IDLE

/-- Charging state (BatterySM.cpp lines 205 to 266). -/
def ChargingObj : BatteryStateObj where
  bsStateID := BS_CHARGING
  handleBMSData := fun _ => BS_CHARGING
  handleChargerData := fun _ => BS_CHARGING
  handleFuelGaugeData := fun _ => BS_CHARGING

/-- Discharging state (BatterySM.cpp lines 272 to 334). -/
def DischargingObj : BatteryStateObj where
  bsStateID := BS_DISCHARGING
  handleBMSData := fun _ => BS_DISCHARGING
  handleChargerData := fun _ => BS_DISCHARGING
  handleFuelGaugeData := fun _ => BS_DISCHARGING

/-- Fault state (BatterySM.cpp lines 340 to 403). -/
def FaultObj : BatteryStateObj where
  bsStateID := BS_FAULT
  handleBMSData := fun _ => BS_FAULT
  handleChargerData := fun _ => BS_FAULT
  handleFuelGaugeData := fun _ => BS_FAULT

/-- One observable hook call of the state machine: the OnExit or OnEnter of
the state with the given id. -/
inductive SMEvent
  | onExit (stateId : Nat)
  | onEnter (stateId : Nat)
  deriving DecidableEq

/-- The battery state machine (BatterySM.hpp lines 47 to 62): the dense
state table indexed by the valid state ids and the current state cursor. -/
structure BatterySM where
  stateArray : Fin BS_NONE → BatteryStateObj
  bs_currentState : BatteryStateObj

/-- The state array exactly as the constructor news it, slot by slot in
enum order (BatterySM.cpp lines 20 to 23); a slot is an Option so that the
construction check can speak about a nullable pointer. -/
def constructedStateArray : List (Option BatteryStateObj) :=
  [some IdleObj, some ChargingObj, some DischargingObj, some FaultObj]

/-- The construction invariant loop (BatterySM.cpp lines 26 to 29): for
every i below BS_NONE, SOAR_ASSERT that slot i is non-null and that
GetStateID of slot i equals i. -/
def checkStateArray (arr : List (Option BatteryStateObj)) : Bool :=
  (List.range BS_NONE).all fun i =>
    match arr.getD i none with
    | some s => s.bsStateID == i
    | none => false

/-- The constructed table as a total function, the form usable once the
construction check has passed. -/
def stateTable : Fin BS_NONE → BatteryStateObj := fun i =>
  match i.val with
  | 0 => IdleObj
  | 1 => ChargingObj
  | 2 => DischargingObj
  | _ => FaultObj

/-- BatterySM constructor (BatterySM.cpp lines 17 to 39): builds the table,
runs the invariant check, points the cursor at the starting slot and, when
asked, runs the OnEnter hook of the starting state. Returns the machine and
the trace of hook calls made during construction. -/
def mkBatterySM (startingState : Fin BS_NONE) (enterStartingState : Bool) :
    BatterySM × List SMEvent :=
  let cur := stateTable startingState
  ({ stateArray := stateTable, bs_currentState := cur },
   if enterStartingState then [SMEvent.onEnter cur.bsStateID] else [])

/-- BatterySM.TransitionState (BatterySM.cpp lines 46 to 74): reject a
transition to the current state, then reject a target at or above BS_NONE,
otherwise run OnExit of the current state, move the cursor, run OnEnter of
the new state. Returns the machine after the call, the returned state id
and the trace of hook calls; the SOAR_ASSERT that the new state is non-null
holds trivially with a total table. -/
def BatterySM.transitionState (sm : BatterySM) (nextState : Nat) :
    BatterySM × Nat × List SMEvent :=
  if nextState = sm.bs_currentState.bsStateID then
    (sm, sm.bs_currentState.bsStateID, [])
  else if h : BS_NONE ≤ nextState then
    (sm, sm.bs_currentState.bsStateID, [])
  else
    let previousState := sm.bs_currentState.bsStateID
    let newState := sm.stateArray ⟨nextState, Nat.lt_of_not_le h⟩
    ({ sm with bs_currentState := newState },
     newState.bsStateID,
     [SMEvent.onExit previousState, SMEvent.onEnter newState.bsStateID])

set_option linter.unusedVariables false in
/-- BatterySM.HandleCommand (BatterySM.cpp lines 80 to 113): on a
DATA_COMMAND the fixed-size typed payload is copied out of the Command and
the matching handler of the current state computes nextState, defaulting to
the current state id, but the source never passes nextState to
TransitionState: the switch ends and the value is discarded, so the machine
and the hook trace are unchanged on every path. -/
def BatterySM.handleCommand (sm : BatterySM) (cm : Command) :
    BatterySM × List SMEvent :=
  match cm.command with
  | GLOBAL_COMMAND.DATA_COMMAND =>
      let nextState : Nat :=
        if cm.taskCommand = BMS_UPDATE then
          sm.bs_currentState.handleBMSData ⟨cm.copyDataFromCommand sizeofBMSData⟩
        else if cm.taskCommand = CHARGER_UPDATE then
          sm.bs_currentState.handleChargerData ⟨cm.copyDataFromCommand sizeofChargerData⟩
        else if cm.taskCommand = FUEL_GAUGE_UPDATE then
          sm.bs_currentState.handleFuelGaugeData ⟨cm.copyDataFromCommand sizeofFuelGaugeData⟩
        else
          sm.bs_currentState.bsStateID
      (sm, [])
  | _ => (sm, [])

/-- Proto node identities the gateway compares (the Proto headers are
generated code not under src/; spec section 3 names this node and the
designated controller node, and NODE_DMB appears at outbound call sites). -/
inductive Node
  | NODE_PMB
  | NODE_RCU
  | NODE_DMB
  deriving DecidableEq

/-- Modelled from the spec: the mission command enum carried by a command
message; RSC_ANY_TO_ABORT is the one value the gateway recognises and every
other value falls into the default no-op branch. -/
inductive DmbCommandEnum
  | RSC_ANY_TO_ABORT
  | otherCommand (code : Nat)
  deriving DecidableEq

/-- Command message envelope (Proto CommandMessage): source and target node
identities and an optional pmb_command submessage, flattened here to its
command enum. -/
structure CommandMessage where
  source : Node
  target : Node
  pmb_command : Option DmbCommandEnum
  deriving DecidableEq

/-- Modelled from the spec: the system-control sub-command enum of a
control message, with a catch-all for unrecognised values. -/
inductive SysCtrlCommand
  | SYS_FLASH_LOG_ENABLE
  | SYS_FLASH_LOG_DISABLE
  | SYS_RESET
  | SYS_CRITICAL_FLASH_FULL_ERASE
  | SYS_LOG_PERIOD_CHANGE
  | otherSys (code : Nat)
  deriving DecidableEq

/-- Modelled from the spec: the control message body is one discriminated
payload among heartbeat, ping, acknowledgement and system control (spec
section 6), or none at all. -/
inductive ControlBody
  | hb
  | ping
  | ack (ackingMsgSource : Node) (ackingSequenceNum : Nat)
  | sysCtrl (sys_cmd : SysCtrlCommand) (cmd_param : Nat)
  | noBody
  deriving DecidableEq

/-- Control message envelope: source and target node identities, the
top-level source sequence number and the discriminated body. -/
structure ControlMessage where
  source : Node
  target : Node
  source_sequence_num : Nat
  body : ControlBody
  deriving DecidableEq

/-- Destination task queues that the gateway and the tasks send Commands
to. -/
inductive TaskDest
  | flightTask
  | watchdogTask
  | flashTask
  | telemetryTask
  deriving DecidableEq

/-- Wire message kind tags used on the outbound path. -/
inductive MessageID
  | MSG_CONTROL
  | MSG_TELEMETRY
  deriving DecidableEq

/-- Outbound envelope contents built by the embedded code; only the fields
the source sets are recorded. The ack response sets exactly the AckNack
fields acking_msg_source and acking_sequence_num. -/
inductive OutMessage
  | controlAck (ackingMsgSource : Node) (ackingSequenceNum : Nat)
  | controlSysState
  deriving DecidableEq

/-- One externally visible action of a handler, in program order. -/
inductive Effect
  | sendCommand (dest : TaskDest) (cmd : Command)
  | sendProtobuf (msg : OutMessage) (msgId : MessageID)
  | resetCmd
  | fatalAssert
  | sampleThermocouple
  | transmitThermoData
  | thermoDebugPrint
  | logPrint
  deriving DecidableEq

/-- PMBProtocolTask.HandleProtobufCommandMessage (src/unnamed/part_000
lines 128 to 153): drop the envelope unless the source is NODE_RCU and the
target is NODE_PMB, drop it when it has no pmb_command, map the recognised
RSC_ANY_TO_ABORT value to one CONTROL_ACTION Command for the flight task,
and treat every other value as a no-op. -/
def handleProtobufCommandMessage (msg : CommandMessage) : List Effect :=
  if msg.source ≠ Node.NODE_RCU ∨ msg.target ≠ Node.NODE_PMB then []
  else
    match msg.pmb_command with
    | none => []
    | some DmbCommandEnum.RSC_ANY_TO_ABORT =>
        [Effect.sendCommand TaskDest.flightTask
          (mkCommand GLOBAL_COMMAND.CONTROL_ACTION RSC_ANY_TO_ABORT)]
    | some (DmbCommandEnum.otherCommand _) => []

/-- PMBProtocolTask.HandleProtobufControlMesssage (src/unnamed/part_000
lines 158 to 211, source spelling kept): drop the envelope unless the
source is NODE_RCU and the target is NODE_PMB; a heartbeat sends one
HEARTBEAT_COMMAND to the watchdog task; a ping sends exactly one control
envelope whose AckNack carries the message source and the message
source_sequence_num; a system control message maps its sub-command as the
source does, the log period parameter being clamped to 0xFFFE when it
exceeds 0xFFFF; everything else is a no-op. -/
def handleProtobufControlMesssage (msg : ControlMessage) : List Effect :=
  if msg.source ≠ Node.NODE_RCU ∨ msg.target ≠ Node.NODE_PMB then []
  else
    match msg.body with
    | ControlBody.hb =>
        [Effect.sendCommand TaskDest.watchdogTask
          (mkCommand GLOBAL_COMMAND.HEARTBEAT_COMMAND RADIOHB_REQUEST)]
    | ControlBody.ping =>
        [Effect.sendProtobuf
          (OutMessage.controlAck msg.source msg.source_sequence_num)
          MessageID.MSG_CONTROL]
    | ControlBody.sysCtrl sysCmd cmdParam =>
        match sysCmd with
        | SysCtrlCommand.SYS_FLASH_LOG_ENABLE => []
        | SysCtrlCommand.SYS_FLASH_LOG_DISABLE => []
        | SysCtrlCommand.SYS_RESET => [Effect.fatalAssert]
        | SysCtrlCommand.SYS_CRITICAL_FLASH_FULL_ERASE =>
            [Effect.sendCommand TaskDest.flashTask
              (mkCommand GLOBAL_COMMAND.TASK_SPECIFIC_COMMAND ERASE_ALL_FLASH)]
        | SysCtrlCommand.SYS_LOG_PERIOD_CHANGE =>
            let paramMs := if cmdParam > 0xFFFF then 0xFFFE else cmdParam
            [Effect.sendCommand TaskDest.telemetryTask
              (mkCommand GLOBAL_COMMAND.TELEMETRY_CHANGE_PERIOD paramMs)]
        | SysCtrlCommand.otherSys _ => []
    | ControlBody.ack _ _ => []
    | ControlBody.noBody => []

/-- BMSTask sub-handler for REQUEST_COMMAND sub-codes (BMSTask.cpp lines 81
to 98): each recognised request performs its local action, anything else is
logged. -/
def handleRequestCommandBMS (taskCommand : Nat) : List Effect :=
  if taskCommand = THERMOCOUPLE_REQUEST_NEW_SAMPLE then [Effect.sampleThermocouple]
  else if taskCommand = THERMOCOUPLE_REQUEST_TRANSMIT then [Effect.transmitThermoData]
  else if taskCommand = THERMOCOUPLE_REQUEST_DEBUG then [Effect.thermoDebugPrint]
  else [Effect.logPrint]

/-- BMSTask.HandleCommand (BMSTask.cpp lines 57 to 75): dispatch on the
command kind, log an unsupported kind, and Reset the Command
unconditionally afterwards. -/
def bmsTaskHandleCommand (cm : Command) : List Effect :=
  (match cm.command with
   | GLOBAL_COMMAND.REQUEST_COMMAND => handleRequestCommandBMS cm.taskCommand
   | GLOBAL_COMMAND.TASK_SPECIFIC_COMMAND => []
   | _ => [Effect.logPrint]) ++ [Effect.resetCmd]

/-- TelemetryTask.HandleCommand (TelemetryTask.cpp lines 63 to 78): a
TELEMETRY_CHANGE_PERIOD Command overwrites loggingDelayMs with its 16-bit
sub-code, anything else is logged, and the Command is Reset
unconditionally. Returns the new loggingDelayMs and the effects. -/
def telemetryTaskHandleCommand (loggingDelayMs : Nat) (cm : Command) :
    Nat × List Effect :=
  match cm.command with
  | GLOBAL_COMMAND.TELEMETRY_CHANGE_PERIOD =>
      (cm.taskCommand % 65536, [Effect.resetCmd])
  | _ => (loggingDelayMs, [Effect.logPrint, Effect.resetCmd])

/-- Modelled from the spec: RocketSM.HandleCommand is not under src/. Per
spec sections 4.2 and 4.3 the machine-side handling never Resets the
Command, Reset being the duty of the dispatching Task, and its transition
work is internal to the machine, so it contributes no Effect here; only its
Reset-freedom is relied on by any theorem. -/
def rocketSMHandleCommand (_cm : Command) : List Effect := []

/-- FlightTask.SendRocketState (FlightTask.cpp lines 117 to 144): builds
one control envelope carrying the system state and hands it to the gateway;
the boot-counter dependent contents are elided since no claim concerns
them. -/
def sendRocketState : List Effect :=
  [Effect.sendProtobuf OutMessage.controlSysState MessageID.MSG_CONTROL]

/-- FlightTask.HandleCommand (FlightTask.cpp lines 102 to 112): a
REQUEST_COMMAND with FT_REQUEST_TRANSMIT_STATE sends the rocket state,
anything else goes to the rocket state machine, and the Command is Reset
unconditionally at the end. -/
def flightTaskHandleCommand (cm : Command) : List Effect :=
  (if cm.command = GLOBAL_COMMAND.REQUEST_COMMAND
      ∧ cm.taskCommand = FT_REQUEST_TRANSMIT_STATE then
     sendRocketState
   else
     rocketSMHandleCommand cm) ++ [Effect.resetCmd]

/-- Modelled from the spec: the RocketState enum (RocketSM.hpp is not under
src/); per the spec the mission phases start at RS_PRELAUNCH, RS_ABORT is a
valid phase near the end and RS_NONE is the invalid sentinel one past the
last valid phase. The exact count of intermediate phases is immaterial to
every theorem. -/
abbrev RS_PRELAUNCH : Nat := 0

/-- The safe abort phase of the mission state machine. -/
abbrev RS_ABORT : Nat := 9

/-- The invalid sentinel of the mission phase enum. -/
abbrev RS_NONE : Nat := 10

/-- FlightTask.Run startup recovery (FlightTask.cpp lines 45 to 65): read
the persisted SystemState; on success an out-of-range rocketState is
replaced by RS_ABORT before the machine is constructed, and on a failed
read the machine is constructed in RS_ABORT. Returns the starting state the
RocketSM is constructed with. -/
def flightStartupRocketState (readResult : Option Nat) : Nat :=
  match readResult with
  | some rocketState =>
      if RS_NONE ≤ rocketState ∨ rocketState < RS_PRELAUNCH then RS_ABORT
      else rocketState
  | none => RS_ABORT

/-- A concretely constructed battery machine starting in Idle, used by the
witnesses. -/
def demoBatterySM : BatterySM := (mkBatterySM ⟨BS_IDLE, by decide⟩ true).1

/-- An Idle-identified state object whose BMS handler answers with a
transition to Fault, exhibiting that the answer is discarded. Handler
bodies are virtual domain policy, so any answer is a legal behaviour. -/
def faultingIdleObj : BatteryStateObj where
  bsStateID := BS_IDLE
  handleBMSData := fun _ => BS_FAULT
  handleChargerData := fun _ => BS_IDLE
  handleFuelGaugeData := fun _ => BS_IDLE

/-- A battery machine whose current state is the faulting Idle object. -/
def faultingBatterySM : BatterySM where
  stateArray := stateTable
  bs_currentState := faultingIdleObj

/-- The BMS update Command used as the failing input for the discarded
transition. -/
def bmsUpdateCommand : Command := mkCommand GLOBAL_COMMAND.DATA_COMMAND BMS_UPDATE

/-- Claim C1 evaluation at the failing input: the handler invoked on the
current Idle state answers BS_FAULT, yet HandleCommand leaves the machine
unchanged with an empty hook trace, while TransitionState applied to that
answer would have moved the machine to the Fault state with an exit and an
entry hook; the computed next state is discarded instead of being applied
through TransitionState. -/
theorem C1_dataCommand_transition_discarded :
    faultingBatterySM.handleCommand bmsUpdateCommand = (faultingBatterySM, [])
    ∧ faultingIdleObj.handleBMSData
        ⟨bmsUpdateCommand.copyDataFromCommand sizeofBMSData⟩ = BS_FAULT
    ∧ BS_FAULT ≠ BS_IDLE
    ∧ (faultingBatterySM.transitionState BS_FAULT).1.bs_currentState.bsStateID = BS_FAULT
    ∧ (faultingBatterySM.transitionState BS_FAULT).2.2
        = [SMEvent.onExit BS_IDLE, SMEvent.onEnter BS_FAULT] :=
  ⟨rfl, rfl, by decide, rfl, rfl⟩

/-- Claim C2 counterexample: a system-control log period change with
parameter 100000 is forwarded as a TELEMETRY_CHANGE_PERIOD Command carrying
65534 (0xFFFE), which is not the claimed 16-bit maximum 65535 (0xFFFF). -/
theorem C2_clamp_counterexample :
    handleProtobufControlMesssage
        { source := Node.NODE_RCU, target := Node.NODE_PMB,
          source_sequence_num := 0,
          body := ControlBody.sysCtrl SysCtrlCommand.SYS_LOG_PERIOD_CHANGE 100000 }
      = [Effect.sendCommand TaskDest.telemetryTask
          { command := GLOBAL_COMMAND.TELEMETRY_CHANGE_PERIOD,
            taskCommand := 65534, data := [] }]
    ∧ (65534 : Nat) ≠ 65535 :=
  ⟨rfl, by decide⟩

/-- Claim C2 amended: the forwarded TELEMETRY_CHANGE_PERIOD Command carries
the parameter itself when it fits in 16 bits and the clamp constant 65534
(0xFFFE, one below the 16-bit maximum) when the parameter exceeds 16
bits. -/
theorem C2_clamp_amended (p seq : Nat) :
    ∃ cmd : Command,
      handleProtobufControlMesssage
          { source := Node.NODE_RCU, target := Node.NODE_PMB,
            source_sequence_num := seq,
            body := ControlBody.sysCtrl SysCtrlCommand.SYS_LOG_PERIOD_CHANGE p }
        = [Effect.sendCommand TaskDest.telemetryTask cmd]
      ∧ cmd.command = GLOBAL_COMMAND.TELEMETRY_CHANGE_PERIOD
      ∧ cmd.taskCommand = (if 65535 < p then 65534 else p) := by
  refine ⟨mkCommand GLOBAL_COMMAND.TELEMETRY_CHANGE_PERIOD
    (if 65535 < p then 65534 else p), rfl, rfl, ?_⟩
  by_cases h : 65535 < p
  · simp [mkCommand, h]
  · have hp : p < 65536 := by omega
    simp [mkCommand, h, Nat.mod_eq_of_lt hp]

/-- Claim C3: the table built by the BatterySM constructor passes the
construction check and every slot holds a state object whose id equals its
index; and any table with a null slot or an id mismatch at a valid index
fails the check, so constructing from it would fail the fatal assertion. -/
theorem C3_stateTable_invariant :
    (checkStateArray constructedStateArray = true
      ∧ ∀ i : Fin BS_NONE,
          (constructedStateArray.getD i.val none).map BatteryStateObj.bsStateID
            = some i.val)
    ∧ ∀ arr : List (Option BatteryStateObj),
        (∃ i : Fin BS_NONE, arr.getD i.val none = none
          ∨ ∃ s, arr.getD i.val none = some s ∧ s.bsStateID ≠ i.val) →
        checkStateArray arr = false := by
  refine ⟨⟨rfl, ?_⟩, ?_⟩
  · intro i
    fin_cases i <;> rfl
  · intro arr h
    obtain ⟨i, hi⟩ := h
    by_contra hfalse
    rw [Bool.not_eq_false] at hfalse
    simp only [checkStateArray, List.all_eq_true] at hfalse
    have hx := hfalse i.val (List.mem_range.mpr i.isLt)
    rcases hi with hnone | ⟨s, hs, hne⟩
    · rw [hnone] at hx
      simp at hx
    · rw [hs] at hx
      simp only [beq_iff_eq] at hx
      exact hne hx

/-- Claim C4: a transition to the id of the current state is a no-op: the
machine is unchanged, the unchanged current id is returned and no OnExit or
OnEnter hook is called. -/
theorem C4_self_transition_noop (sm : BatterySM) :
    sm.transitionState sm.bs_currentState.bsStateID
      = (sm, sm.bs_currentState.bsStateID, []) := by
  simp [BatterySM.transitionState]

/-- Claim C5: a transition target at or above BS_NONE is rejected: the
machine is unchanged, no hook is called and the unchanged current id is
returned. -/
theorem C5_invalid_target_rejected (sm : BatterySM) (nextState : Nat)
    (h : BS_NONE ≤ nextState) :
    sm.transitionState nextState = (sm, sm.bs_currentState.bsStateID, []) := by
  unfold BatterySM.transitionState
  by_cases he : nextState = sm.bs_currentState.bsStateID
  · rw [if_pos he]
  · rw [if_neg he, dif_pos h]

/-- Claim C5 witness: the concretely constructed machine rejects the
invalid target 7. -/
theorem C5_invalid_target_rejected_witness :
    demoBatterySM.transitionState 7
      = (demoBatterySM, demoBatterySM.bs_currentState.bsStateID, []) :=
  C5_invalid_target_rejected demoBatterySM 7 (by decide)

/-- Claim C6: an inbound command or control envelope whose source is not
the controller NODE_RCU or whose target is not this node NODE_PMB produces
no internal Command to any task queue and no outbound transmission. -/
theorem C6_routing_validation_drops (cm : CommandMessage) (ctl : ControlMessage)
    (h1 : cm.source ≠ Node.NODE_RCU ∨ cm.target ≠ Node.NODE_PMB)
    (h2 : ctl.source ≠ Node.NODE_RCU ∨ ctl.target ≠ Node.NODE_PMB) :
    handleProtobufCommandMessage cm = []
    ∧ handleProtobufControlMesssage ctl = [] := by
  constructor
  · unfold handleProtobufCommandMessage
    rw [if_pos h1]
  · unfold handleProtobufControlMesssage
    rw [if_pos h2]

/-- Claim C6 witness: a command envelope from the wrong source and a
control envelope with the wrong target are both dropped with no effect. -/
theorem C6_routing_validation_drops_witness :
    handleProtobufCommandMessage
        { source := Node.NODE_DMB, target := Node.NODE_PMB,
          pmb_command := some DmbCommandEnum.RSC_ANY_TO_ABORT }
      = []
    ∧ handleProtobufControlMesssage
        { source := Node.NODE_RCU, target := Node.NODE_DMB,
          source_sequence_num := 5, body := ControlBody.ping }
      = [] :=
  C6_routing_validation_drops _ _ (Or.inl (by decide)) (Or.inr (by decide))

/-- Claim C7: a ping from the expected peer yields exactly one outbound
control envelope whose acknowledgement names the peer node as the acked
source and carries the same sequence number. -/
theorem C7_ping_yields_single_ack (msg : ControlMessage)
    (hs : msg.source = Node.NODE_RCU) (ht : msg.target = Node.NODE_PMB)
    (hb : msg.body = ControlBody.ping) :
    handleProtobufControlMesssage msg
      = [Effect.sendProtobuf
          (OutMessage.controlAck msg.source msg.source_sequence_num)
          MessageID.MSG_CONTROL] := by
  rcases msg with ⟨src, tgt, seq, body⟩
  simp only at hs ht hb
  subst hs
  subst ht
  subst hb
  rfl

/-- Claim C7 witness: an inbound ping with sequence number 42 from the peer
yields exactly one ack referencing the peer and sequence number 42. -/
theorem C7_ping_yields_single_ack_witness :
    handleProtobufControlMesssage
        { source := Node.NODE_RCU, target := Node.NODE_PMB,
          source_sequence_num := 42, body := ControlBody.ping }
      = [Effect.sendProtobuf (OutMessage.controlAck Node.NODE_RCU 42)
          MessageID.MSG_CONTROL] :=
  C7_ping_yields_single_ack _ rfl rfl rfl

/-- Claim C8: a failed persisted-state read starts the rocket state machine
in RS_ABORT; a persisted phase outside the valid range also starts it in
RS_ABORT; a valid persisted phase starts the machine in that phase. -/
theorem C8_startup_recovery (r : Nat) :
    flightStartupRocketState none = RS_ABORT
    ∧ ((RS_NONE ≤ r ∨ r < RS_PRELAUNCH) → flightStartupRocketState (some r) = RS_ABORT)
    ∧ (RS_PRELAUNCH ≤ r ∧ r < RS_NONE → flightStartupRocketState (some r) = r) := by
  refine ⟨rfl, ?_, ?_⟩
  · intro h
    have heq : flightStartupRocketState (some r)
        = if RS_NONE ≤ r ∨ r < RS_PRELAUNCH then RS_ABORT else r := rfl
    rw [heq, if_pos h]
  · rintro ⟨h1, h2⟩
    have h2lit : r < 10 := h2
    have hno : ¬(RS_NONE ≤ r ∨ r < RS_PRELAUNCH) := by
      show ¬(10 ≤ r ∨ r < 0)
      omega
    have heq : flightStartupRocketState (some r)
        = if RS_NONE ≤ r ∨ r < RS_PRELAUNCH then RS_ABORT else r := rfl
    rw [heq, if_neg hno]

/-- Claim C9: every dispatch path of the BMS, telemetry and flight task
command handlers performs exactly one Reset of the handled Command, the
unrecognized-command branches included. -/
theorem C9_reset_exactly_once (cm : Command) :
    (bmsTaskHandleCommand cm).count Effect.resetCmd = 1
    ∧ (∀ loggingDelayMs : Nat,
        ((telemetryTaskHandleCommand loggingDelayMs cm).2).count Effect.resetCmd = 1)
    ∧ (flightTaskHandleCommand cm).count Effect.resetCmd = 1 := by
  obtain ⟨gc, tc, d⟩ := cm
  refine ⟨?_, ?_, ?_⟩
  · cases gc <;>
      first
        | rfl
        | (simp only [bmsTaskHandleCommand, handleRequestCommandBMS]
           split_ifs <;> rfl)
  · intro loggingDelayMs
    cases gc <;> rfl
  · unfold flightTaskHandleCommand
    split_ifs <;> rfl

/-- Claim C10: for every command of any kind and sub-code, HandleCommand of
the battery machine is a pure frame: the machine, in particular the current
state cursor, is unchanged and no OnExit or OnEnter hook runs, because the
computed next state is never passed to TransitionState. -/
theorem C10_handleCommand_is_frame (sm : BatterySM) (cm : Command) :
    sm.handleCommand cm = (sm, []) := by
  obtain ⟨gc, tc, d⟩ := cm
  cases gc <;> rfl
